import Mathlib

/-!
# Verification of magma/core/thread/thread.c (MCore)

A shallow embedding of the thread-lifecycle module `src/core/thread/thread.c`.
Each underlying POSIX call (`pthread_attr_init`, `pthread_attr_setstacksize`,
`pthread_create`, `pthread_join`, `pthread_kill`, `pthread_cancel`,
`pthread_setcancelstate`) and the allocator (`mm_alloc`/`mm_free`) is modelled
as an oracle: an `Env` record fixes the status each call would return, and every
call appends an `Event` to an effect trace (writer style).  The module's
functions (`thread_launch`, `thread_alloc`, `thread_join`, `thread_result`,
`thread_signal`, `thread_cancel`, `thread_cancel_enable`,
`thread_cancel_disable`) are translated control-flow-for-control-flow from the C
source; `mclog_pedantic` calls become `Event.log` entries (modelling the
`MAGMA_PEDANTIC` build, in which the logging macro and the pedantic branch of
`thread_cancel` are active).
-/

namespace MCore

/-- Observable effects of the underlying calls made by `thread.c`.
Boolean fields record whether the call succeeded (status 0), where that
matters for resource accounting. -/
inductive Event where
  /-- Models `pthread_attr_init(&attributes)`; `ok` is true iff it returned 0,
  i.e. iff the attribute structure is now initialized. -/
  | attr_init (ok : Bool)
  /-- Models `pthread_attr_setstacksize(&attributes, size)`. -/
  | attr_setstacksize (size : Nat)
  /-- Models `pthread_attr_destroy(&attributes)`. -/
  | attr_destroy
  /-- Models `pthread_create(thread, &attributes, function, data)`; `ok` is true iff
  it returned 0, i.e. iff a new thread is now running. -/
  | create (ok : Bool)
  /-- Models `mm_alloc(sizeof(pthread_t))`; `ok` is true iff it returned non-NULL. -/
  | alloc (ok : Bool)
  /-- Models `mm_free(result)`. -/
  | free
  /-- Models `pthread_join(thread, r)`; `capture` is true iff `r` was a non-NULL
  result pointer, `ok` is true iff the join returned 0. -/
  | join (capture : Bool) (ok : Bool)
  /-- Models `pthread_kill(thread, sig)`. -/
  | kill (sig : Int)
  /-- Models `pthread_cancel(thread)`. -/
  | cancel
  /-- Models `pthread_setcancelstate(state, NULL)`; `enable` is true for
  `PTHREAD_CANCEL_ENABLE`, false for `PTHREAD_CANCEL_DISABLE`. -/
  | setcancelstate (enable : Bool)
  /-- Models `mclog_pedantic(...)` naming the failed underlying call and the numeric
  status code it returned. -/
  | log (call : String) (code : Int)
  /-- The `mclog_pedantic` in `thread_alloc` reporting an allocation failure;
  its only numeric datum is the requested size in bytes. -/
  | log_alloc_failure (bytes : Nat)
  deriving DecidableEq, Repr

/-- Oracle for the underlying calls: the status each would return if invoked,
plus the process-wide configuration `magma_core.system.thread_stack_size`, the
allocator's outcome, and the exit value `pthread_join` would store through a
non-NULL result pointer (opaque `void *`, modelled as `Int`). -/
structure Env where
  attr_init_ret : Int
  setstacksize_ret : Int
  create_ret : Int
  join_ret : Int
  kill_ret : Int
  cancel_ret : Int
  alloc_ok : Bool
  thread_stack_size : Nat
  exit_value : Int
  deriving DecidableEq, Repr

/-- Models `ESRCH`: no thread with the given id could be found (Linux errno 3). -/
def ESRCH : Int := 3

/-- Models `sizeof(pthread_t)` on the reference platform (LP64 Linux). -/
def sizeof_pthread_t : Nat := 8

/-- Models `pthread_attr_init(&attributes)`. -/
def pthread_attr_init (env : Env) : Int × List Event :=
  (env.attr_init_ret, [Event.attr_init (env.attr_init_ret == 0)])

/-- Models `pthread_attr_setstacksize(&attributes, size)`. -/
def pthread_attr_setstacksize (env : Env) (size : Nat) : Int × List Event :=
  (env.setstacksize_ret, [Event.attr_setstacksize size])

/-- Models `pthread_attr_destroy(&attributes)` (its return value is ignored by the
source, so only the event is recorded). -/
def pthread_attr_destroy : List Event := [Event.attr_destroy]

/-- Models `pthread_create(thread, &attributes, function, data)`. -/
def pthread_create (env : Env) : Int × List Event :=
  (env.create_ret, [Event.create (env.create_ret == 0)])

/-- Models `mm_alloc(sizeof(pthread_t))`: true iff the allocation succeeded. -/
def mm_alloc (env : Env) : Bool × List Event :=
  (env.alloc_ok, [Event.alloc env.alloc_ok])

/-- Models `mm_free(result)`. -/
def mm_free : List Event := [Event.free]

/-- Models `pthread_join(thread, r)` where `capture` says whether `r` is non-NULL;
returns the status and the value stored through `r` (stored only on success
and only when `r` is non-NULL). -/
def pthread_join (env : Env) (capture : Bool) : (Int × Option Int) × List Event :=
  ((env.join_ret, if capture && env.join_ret == 0 then some env.exit_value else none),
   [Event.join capture (env.join_ret == 0)])

/-- Models `pthread_kill(thread, sig)`. -/
def pthread_kill (env : Env) (sig : Int) : Int × List Event :=
  (env.kill_ret, [Event.kill sig])

/-- Models `pthread_cancel(thread)`. -/
def pthread_cancel (env : Env) : Int × List Event :=
  (env.cancel_ret, [Event.cancel])

/-- Models `pthread_setcancelstate(state, NULL)` (return value ignored by the source). -/
def pthread_setcancelstate (enable : Bool) : List Event :=
  [Event.setcancelstate enable]

/-- Models `mclog_pedantic(...)` with a failed call name and its status code. -/
def mclog_pedantic (call : String) (code : Int) : List Event :=
  [Event.log call code]

/-- Models `thread_launch(pthread_t *thread, void *function, void *data)`:

```c
int_t result;
pthread_attr_t attributes;
if ((result = pthread_attr_init(&attributes))) {
    mclog_pedantic(..., result);
    return result;
}
else if ((result = pthread_attr_setstacksize(&attributes, magma_core.system.thread_stack_size))) {
    mclog_pedantic(..., result);
    pthread_attr_destroy(&attributes);
    return result;
}
else if ((result = pthread_create(thread, &attributes, function, data))) {
    mclog_pedantic(..., result);
    pthread_attr_destroy(&attributes);
    return result;
}
pthread_attr_destroy(&attributes);
return result;
```

Returns the `int_t` result plus the trace of underlying calls and logs. -/
def thread_launch (env : Env) : Int × List Event :=
  let step1 := pthread_attr_init env
  if step1.1 ≠ 0 then
    (step1.1, step1.2 ++ mclog_pedantic "pthread_attr_init" step1.1)
  else
    let step2 := pthread_attr_setstacksize env env.thread_stack_size
    if step2.1 ≠ 0 then
      (step2.1, step1.2 ++ step2.2 ++ mclog_pedantic "pthread_attr_setstacksize" step2.1
        ++ pthread_attr_destroy)
    else
      let step3 := pthread_create env
      if step3.1 ≠ 0 then
        (step3.1, step1.2 ++ step2.2 ++ step3.2 ++ mclog_pedantic "pthread_create" step3.1
          ++ pthread_attr_destroy)
      else
        (step3.1, step1.2 ++ step2.2 ++ step3.2 ++ pthread_attr_destroy)

/-- Models `thread_alloc(void *function, void *data)`:

```c
int_t ret;
pthread_t *result;
if (!(result = mm_alloc(sizeof(pthread_t)))) {
    mclog_pedantic("Could not allocate %zu bytes ...", sizeof(pthread_t));
    return NULL;
}
else if ((ret = thread_launch(result, function, data))) {
    mclog_pedantic("... {thread_init = %i}", ret);
    mm_free(result);
    return NULL;
}
return result;
```

The returned pointer is modelled as `Option Unit` (`none` = NULL). -/
def thread_alloc (env : Env) : Option Unit × List Event :=
  let alloc := mm_alloc env
  if !alloc.1 then
    (none, alloc.2 ++ [Event.log_alloc_failure sizeof_pthread_t])
  else
    let launch := thread_launch env
    if launch.1 ≠ 0 then
      (none, alloc.2 ++ launch.2 ++ mclog_pedantic "thread_init" launch.1 ++ mm_free)
    else
      (some (), alloc.2 ++ launch.2)

/-- Models `thread_join(pthread_t thread)`:

```c
int_t ret = pthread_join(thread, NULL);
if (ret) {
    mclog_pedantic("... { pthread_join = %i }", ret);
}
return ret;
```
-/
def thread_join (env : Env) : Int × List Event :=
  let j := pthread_join env false
  if j.1.1 ≠ 0 then
    (j.1.1, j.2 ++ mclog_pedantic "pthread_join" j.1.1)
  else
    (j.1.1, j.2)

/-- Models `thread_result(pthread_t thread, void **result)`:

```c
int_t ret = pthread_join(thread, result);
if (ret) {
    mclog_pedantic("... { pthread_join = %i }", ret);
}
return ret;
```

The pair carries the status and the exit value stored through `*result`. -/
def thread_result (env : Env) : (Int × Option Int) × List Event :=
  let j := pthread_join env true
  if j.1.1 ≠ 0 then
    ((j.1.1, j.1.2), j.2 ++ mclog_pedantic "pthread_join" j.1.1)
  else
    ((j.1.1, j.1.2), j.2)

/-- Models `thread_signal(pthread_t thread, int_t signal)`:

```c
return pthread_kill(thread, signal);
```
-/
def thread_signal (env : Env) (sig : Int) : Int × List Event :=
  pthread_kill env sig

/-- Models `thread_cancel(pthread_t thread)` in the `MAGMA_PEDANTIC` build:

```c
int_t result = pthread_cancel(thread);
// ESRCH is returned if the thread has already exited, so we don't need to
// log any error message.
if (result && result != ESRCH) {
    mclog_pedantic("... {pthread_cancel = %i}", result);
}
return result;
```
-/
def thread_cancel (env : Env) : Int × List Event :=
  let c := pthread_cancel env
  if c.1 ≠ 0 ∧ c.1 ≠ ESRCH then
    (c.1, c.2 ++ mclog_pedantic "pthread_cancel" c.1)
  else
    (c.1, c.2)

/-- Models `thread_cancel_enable(void)`:

```c
pthread_setcancelstate(PTHREAD_CANCEL_ENABLE, NULL);
return;
```

Returns no value; the trace is its only observable effect. -/
def thread_cancel_enable : List Event :=
  pthread_setcancelstate true

/-- Models `thread_cancel_disable(void)`:

```c
pthread_setcancelstate(PTHREAD_CANCEL_DISABLE, NULL);
return;
```
-/
def thread_cancel_disable : List Event :=
  pthread_setcancelstate false

/-! ## Trace observations -/

/-- Is this event a diagnostic-log emission? -/
def Event.isLog : Event → Bool
  | .log _ _ => true
  | .log_alloc_failure _ => true
  | _ => false

/-- All diagnostic-log events of a trace, in order. -/
def logs (tr : List Event) : List Event :=
  tr.filter Event.isLog

/-- Number of diagnostic-log events in a trace. -/
def logCount (tr : List Event) : Nat :=
  (logs tr).length

/-- Is this event a successful `pthread_attr_init`, i.e. did it leave an
initialized attribute structure behind? -/
def Event.isAttrInitOk : Event → Bool
  | .attr_init true => true
  | _ => false

/-- Number of successful `pthread_attr_init` calls in a trace, i.e. the number
of attribute structures the trace initialized. -/
def attrInitOkCount (tr : List Event) : Nat :=
  (tr.filter Event.isAttrInitOk).length

/-- Is this event a `pthread_attr_destroy` call? -/
def Event.isAttrDestroy : Event → Bool
  | .attr_destroy => true
  | _ => false

/-- Number of `pthread_attr_destroy` calls in a trace. -/
def attrDestroyCount (tr : List Event) : Nat :=
  (tr.filter Event.isAttrDestroy).length

/-- Is this event a `pthread_attr_init` call (successful or not)? -/
def Event.isAttrInitCall : Event → Bool
  | .attr_init _ => true
  | _ => false

/-- Number of `pthread_attr_init` calls (successful or not) in a trace. -/
def attrInitCallCount (tr : List Event) : Nat :=
  (tr.filter Event.isAttrInitCall).length

/-- Is this event a `pthread_attr_setstacksize` call? -/
def Event.isSetStackSize : Event → Bool
  | .attr_setstacksize _ => true
  | _ => false

/-- Number of `pthread_attr_setstacksize` calls in a trace. -/
def setStackSizeCallCount (tr : List Event) : Nat :=
  (tr.filter Event.isSetStackSize).length

/-- Is this event a `pthread_create` call (successful or not)? -/
def Event.isCreateCall : Event → Bool
  | .create _ => true
  | _ => false

/-- Number of `pthread_create` calls (successful or not) in a trace. -/
def createCallCount (tr : List Event) : Nat :=
  (tr.filter Event.isCreateCall).length

/-- Is this event a successful `pthread_create`, i.e. did it leave a new
thread running? -/
def Event.isCreateOk : Event → Bool
  | .create true => true
  | _ => false

/-- Number of successful `pthread_create` calls in a trace, i.e. the number of
threads the trace left running (none of these operations joins a thread it
created). -/
def createOkCount (tr : List Event) : Nat :=
  (tr.filter Event.isCreateOk).length

/-- Is this event a successful allocation? -/
def Event.isAllocOk : Event → Bool
  | .alloc true => true
  | _ => false

/-- Number of successful allocations in a trace. -/
def allocOkCount (tr : List Event) : Nat :=
  (tr.filter Event.isAllocOk).length

/-- Is this event an `mm_free` call? -/
def Event.isFree : Event → Bool
  | .free => true
  | _ => false

/-- Number of `mm_free` calls in a trace. -/
def freeCount (tr : List Event) : Nat :=
  (tr.filter Event.isFree).length

/-- Is this event a configuration of a thread attribute?  The source's only
attribute-configuring call is `pthread_attr_setstacksize`. -/
def Event.isAttrConfig : Event → Bool
  | .attr_setstacksize _ => true
  | _ => false

/-- Is this event a `pthread_setcancelstate` call? -/
def Event.isSetCancelState : Event → Bool
  | .setcancelstate _ => true
  | _ => false

/-- Number of `pthread_setcancelstate` calls in a trace. -/
def setCancelStateCount (tr : List Event) : Nat :=
  (tr.filter Event.isSetCancelState).length

/-- Is this event a `pthread_join` call? -/
def Event.isJoinCall : Event → Bool
  | .join _ _ => true
  | _ => false

/-- Number of `pthread_join` calls in a trace. -/
def joinCallCount (tr : List Event) : Nat :=
  (tr.filter Event.isJoinCall).length

/-! ## Concrete oracle environments for evaluation -/

/-- An environment in which every underlying call succeeds. -/
def envOk : Env :=
  { attr_init_ret := 0, setstacksize_ret := 0, create_ret := 0, join_ret := 0,
    kill_ret := 0, cancel_ret := 0, alloc_ok := true,
    thread_stack_size := 262144, exit_value := 42 }

/-- An environment in which the cancellation target has already exited:
`pthread_cancel` would return `ESRCH`. -/
def envAlreadyExited : Env :=
  { envOk with cancel_ret := ESRCH }

/-- An environment in which `pthread_attr_init` fails with `ENOMEM` (12). -/
def envInitFail : Env :=
  { envOk with attr_init_ret := 12 }

/-- An environment in which `pthread_attr_setstacksize` fails with
`EINVAL` (22). -/
def envStackFail : Env :=
  { envOk with setstacksize_ret := 22 }

/-- An environment in which `pthread_create` fails with `EAGAIN` (11). -/
def envCreateFail : Env :=
  { envOk with create_ret := 11 }

/-- An environment in which `mm_alloc` fails. -/
def envAllocFail : Env :=
  { envOk with alloc_ok := false }

/-- An environment in which `pthread_join` fails with `EDEADLK` (35). -/
def envJoinFail : Env :=
  { envOk with join_ret := 35 }

/-- An environment in which `pthread_kill` fails with `ESRCH`. -/
def envKillFail : Env :=
  { envOk with kill_ret := ESRCH }

/-- An environment in which `pthread_cancel` fails with `EPERM` (1), a status
other than `ESRCH`. -/
def envCancelFail : Env :=
  { envOk with cancel_ret := 1 }

/-! ## Closed forms of the runs -/

/-- If `pthread_attr_init` fails, `thread_launch` stops there: it logs the
failed call with its code and returns that code. -/
theorem thread_launch_init_fail (env : Env) (h : env.attr_init_ret ≠ 0) :
    thread_launch env =
      (env.attr_init_ret,
       [Event.attr_init false, Event.log "pthread_attr_init" env.attr_init_ret]) := by
  simp [thread_launch, pthread_attr_init, mclog_pedantic, h, beq_iff_eq]

/-- If `pthread_attr_init` succeeds and `pthread_attr_setstacksize` fails,
`thread_launch` logs, destroys the attributes and returns the code. -/
theorem thread_launch_stack_fail (env : Env) (h1 : env.attr_init_ret = 0)
    (h2 : env.setstacksize_ret ≠ 0) :
    thread_launch env =
      (env.setstacksize_ret,
       [Event.attr_init true, Event.attr_setstacksize env.thread_stack_size,
        Event.log "pthread_attr_setstacksize" env.setstacksize_ret,
        Event.attr_destroy]) := by
  simp [thread_launch, pthread_attr_init, pthread_attr_setstacksize,
    pthread_attr_destroy, mclog_pedantic, h1, h2, beq_iff_eq]

/-- If the first two steps succeed and `pthread_create` fails, `thread_launch`
logs, destroys the attributes and returns the code. -/
theorem thread_launch_create_fail (env : Env) (h1 : env.attr_init_ret = 0)
    (h2 : env.setstacksize_ret = 0) (h3 : env.create_ret ≠ 0) :
    thread_launch env =
      (env.create_ret,
       [Event.attr_init true, Event.attr_setstacksize env.thread_stack_size,
        Event.create false, Event.log "pthread_create" env.create_ret,
        Event.attr_destroy]) := by
  simp [thread_launch, pthread_attr_init, pthread_attr_setstacksize,
    pthread_create, pthread_attr_destroy, mclog_pedantic, h1, h2, h3, beq_iff_eq]

/-- If all three steps succeed, `thread_launch` destroys the attributes and
returns 0, with no log. -/
theorem thread_launch_ok (env : Env) (h1 : env.attr_init_ret = 0)
    (h2 : env.setstacksize_ret = 0) (h3 : env.create_ret = 0) :
    thread_launch env =
      (0,
       [Event.attr_init true, Event.attr_setstacksize env.thread_stack_size,
        Event.create true, Event.attr_destroy]) := by
  simp [thread_launch, pthread_attr_init, pthread_attr_setstacksize,
    pthread_create, pthread_attr_destroy, h1, h2, h3, beq_iff_eq]

/-- If `mm_alloc` fails, `thread_alloc` logs the allocation failure and
returns NULL without invoking `thread_launch`. -/
theorem thread_alloc_alloc_fail (env : Env) (h : env.alloc_ok = false) :
    thread_alloc env =
      (none, [Event.alloc false, Event.log_alloc_failure sizeof_pthread_t]) := by
  simp [thread_alloc, mm_alloc, h]

/-- If `mm_alloc` succeeds but `thread_launch` fails, `thread_alloc` logs,
frees the storage and returns NULL. -/
theorem thread_alloc_launch_fail (env : Env) (h : env.alloc_ok = true)
    (h2 : (thread_launch env).1 ≠ 0) :
    thread_alloc env =
      (none, Event.alloc true ::
        ((thread_launch env).2 ++
          [Event.log "thread_init" (thread_launch env).1, Event.free])) := by
  simp [thread_alloc, mm_alloc, mm_free, mclog_pedantic, h, h2]

/-- If `mm_alloc` and `thread_launch` both succeed, `thread_alloc` returns the
allocated handle storage. -/
theorem thread_alloc_ok (env : Env) (h : env.alloc_ok = true)
    (h2 : (thread_launch env).1 = 0) :
    thread_alloc env = (some (), Event.alloc true :: (thread_launch env).2) := by
  simp [thread_alloc, mm_alloc, h, h2]

/-- A `thread_launch` run never calls the allocator or `mm_free`. -/
theorem thread_launch_no_alloc_events (env : Env) :
    (thread_launch env).2.filter Event.isAllocOk = [] ∧
    (thread_launch env).2.filter Event.isFree = [] := by
  by_cases h1 : env.attr_init_ret = 0
  · by_cases h2 : env.setstacksize_ret = 0
    · by_cases h3 : env.create_ret = 0
      · rw [thread_launch_ok env h1 h2 h3]; exact ⟨rfl, rfl⟩
      · rw [thread_launch_create_fail env h1 h2 h3]; exact ⟨rfl, rfl⟩
    · rw [thread_launch_stack_fail env h1 h2]; exact ⟨rfl, rfl⟩
  · rw [thread_launch_init_fail env h1]; exact ⟨rfl, rfl⟩

/-! ## Claims -/

/-- C1 (counterexample): the claim says `thread_cancel` on an
already-terminated target (the underlying `pthread_cancel` reports `ESRCH`)
returns success (zero).  In fact it returns the non-zero `ESRCH` status
unchanged: at the concrete environment `envAlreadyExited` the result is
`ESRCH ≠ 0`. -/
theorem claimC1_counterexample :
    (thread_cancel envAlreadyExited).1 = ESRCH ∧
    (thread_cancel envAlreadyExited).1 ≠ 0 := by
  decide

/-- C1 (amended): when the cancellation target has already exited (the
underlying `pthread_cancel` returns `ESRCH`), `thread_cancel` returns that
non-zero `ESRCH` status to the caller; the benign treatment of this case is
confined to logging — no diagnostic is emitted. -/
theorem claimC1_thread_cancel_already_exited (env : Env)
    (h : env.cancel_ret = ESRCH) :
    (thread_cancel env).1 = ESRCH ∧ logCount (thread_cancel env).2 = 0 := by
  simp [thread_cancel, pthread_cancel, mclog_pedantic, h, ESRCH,
    logCount, logs, Event.isLog]

/-- C1 (witness): the amended statement holds at `envAlreadyExited`. -/
theorem claimC1_witness :
    envAlreadyExited.cancel_ret = ESRCH ∧
    ((thread_cancel envAlreadyExited).1 = ESRCH ∧
      logCount (thread_cancel envAlreadyExited).2 = 0) :=
  ⟨by decide, claimC1_thread_cancel_already_exited envAlreadyExited (by decide)⟩

/-- C2: in every `thread_launch` run, each attribute structure that was
initialized (successful `pthread_attr_init`) is destroyed
(`pthread_attr_destroy`) before the function returns — on success and on every
failure path — and on every failing return no created thread is left running
(no successful `pthread_create` occurs on a failure path). -/
theorem claimC2_thread_launch_cleanup (env : Env) :
    attrInitOkCount (thread_launch env).2 = attrDestroyCount (thread_launch env).2 ∧
    ((thread_launch env).1 ≠ 0 → createOkCount (thread_launch env).2 = 0) := by
  by_cases h1 : env.attr_init_ret = 0
  · by_cases h2 : env.setstacksize_ret = 0
    · by_cases h3 : env.create_ret = 0
      · rw [thread_launch_ok env h1 h2 h3]
        exact ⟨rfl, fun h => absurd rfl h⟩
      · rw [thread_launch_create_fail env h1 h2 h3]
        exact ⟨rfl, fun _ => rfl⟩
    · rw [thread_launch_stack_fail env h1 h2]
      exact ⟨rfl, fun _ => rfl⟩
  · rw [thread_launch_init_fail env h1]
    exact ⟨rfl, fun _ => rfl⟩

/-- C2 (witness): at `envCreateFail` the launch fails, the initialized
attribute structure is destroyed and no thread is left running. -/
theorem claimC2_witness :
    attrInitOkCount (thread_launch envCreateFail).2
      = attrDestroyCount (thread_launch envCreateFail).2 ∧
    (thread_launch envCreateFail).1 ≠ 0 ∧
    createOkCount (thread_launch envCreateFail).2 = 0 :=
  ⟨(claimC2_thread_launch_cleanup envCreateFail).1, by decide,
   (claimC2_thread_launch_cleanup envCreateFail).2 (by decide)⟩

/-- C3: `thread_launch` classifies failure by the step that failed — an
attribute-initialization failure returns `pthread_attr_init`'s code, a
stack-size-configuration failure returns `pthread_attr_setstacksize`'s code, a
creation failure returns `pthread_create`'s code — and each failure produces
exactly one diagnostic log entry naming the failed underlying call together
with its numeric status code; no underlying call is attempted more than once
(no retry). -/
theorem claimC3_thread_launch_failure_classification (env : Env) :
    (env.attr_init_ret ≠ 0 →
      (thread_launch env).1 = env.attr_init_ret ∧
      logs (thread_launch env).2 =
        [Event.log "pthread_attr_init" env.attr_init_ret]) ∧
    (env.attr_init_ret = 0 → env.setstacksize_ret ≠ 0 →
      (thread_launch env).1 = env.setstacksize_ret ∧
      logs (thread_launch env).2 =
        [Event.log "pthread_attr_setstacksize" env.setstacksize_ret]) ∧
    (env.attr_init_ret = 0 → env.setstacksize_ret = 0 → env.create_ret ≠ 0 →
      (thread_launch env).1 = env.create_ret ∧
      logs (thread_launch env).2 =
        [Event.log "pthread_create" env.create_ret]) ∧
    attrInitCallCount (thread_launch env).2 ≤ 1 ∧
    setStackSizeCallCount (thread_launch env).2 ≤ 1 ∧
    createCallCount (thread_launch env).2 ≤ 1 := by
  by_cases h1 : env.attr_init_ret = 0
  · by_cases h2 : env.setstacksize_ret = 0
    · by_cases h3 : env.create_ret = 0
      · rw [thread_launch_ok env h1 h2 h3]
        exact ⟨fun h => absurd h1 h, fun _ h => absurd h2 h, fun _ _ h => absurd h3 h,
          Nat.le_refl 1, Nat.le_refl 1, Nat.le_refl 1⟩
      · rw [thread_launch_create_fail env h1 h2 h3]
        exact ⟨fun h => absurd h1 h, fun _ h => absurd h2 h, fun _ _ _ => ⟨rfl, rfl⟩,
          Nat.le_refl 1, Nat.le_refl 1, Nat.le_refl 1⟩
    · rw [thread_launch_stack_fail env h1 h2]
      exact ⟨fun h => absurd h1 h, fun _ _ => ⟨rfl, rfl⟩, fun _ h => absurd h h2,
        Nat.le_refl 1, Nat.le_refl 1, Nat.zero_le 1⟩
  · rw [thread_launch_init_fail env h1]
    exact ⟨fun _ => ⟨rfl, rfl⟩, fun h => absurd h h1, fun h => absurd h h1,
      Nat.le_refl 1, Nat.zero_le 1, Nat.zero_le 1⟩

/-- C3 (witness): at `envStackFail` the stack-size step fails and the run
returns that code with exactly the one matching log entry. -/
theorem claimC3_witness :
    envStackFail.attr_init_ret = 0 ∧ envStackFail.setstacksize_ret ≠ 0 ∧
    ((thread_launch envStackFail).1 = envStackFail.setstacksize_ret ∧
      logs (thread_launch envStackFail).2 =
        [Event.log "pthread_attr_setstacksize" envStackFail.setstacksize_ret]) :=
  ⟨by decide, by decide,
   (claimC3_thread_launch_failure_classification envStackFail).2.1
     (by decide) (by decide)⟩

/-- C4: in `thread_alloc`, the handle-storage allocation is the first
underlying action (it precedes any `pthread_create`); if the allocation fails
the function returns NULL with no creation attempted; if the subsequent launch
fails, the storage is freed exactly once and NULL is returned; and on every
NULL return the number of successful allocations equals the number of frees
(no storage is retained on a failure path). -/
theorem claimC4_thread_alloc_no_leak (env : Env) :
    (thread_alloc env).2.head? = some (Event.alloc env.alloc_ok) ∧
    (env.alloc_ok = false →
      (thread_alloc env).1 = none ∧ createCallCount (thread_alloc env).2 = 0) ∧
    (env.alloc_ok = true → (thread_launch env).1 ≠ 0 →
      (thread_alloc env).1 = none ∧ freeCount (thread_alloc env).2 = 1) ∧
    ((thread_alloc env).1 = none →
      allocOkCount (thread_alloc env).2 = freeCount (thread_alloc env).2) := by
  cases ha : env.alloc_ok with
  | false =>
    rw [thread_alloc_alloc_fail env ha]
    exact ⟨rfl, fun _ => ⟨rfl, rfl⟩, fun h _ => absurd h (by decide), fun _ => rfl⟩
  | true =>
    by_cases hl : (thread_launch env).1 = 0
    · rw [thread_alloc_ok env ha hl]
      exact ⟨rfl, fun h => absurd h (by decide), fun _ h2 => absurd hl h2,
        fun h => absurd h (by simp)⟩
    · rw [thread_alloc_launch_fail env ha hl]
      have hcounts := thread_launch_no_alloc_events env
      refine ⟨rfl, fun h => absurd h (by decide), fun _ _ => ⟨rfl, ?_⟩, fun _ => ?_⟩
      · simp [freeCount, List.filter_append, hcounts.2, Event.isFree]
      · simp [freeCount, allocOkCount, List.filter_append,
          hcounts.1, hcounts.2, Event.isFree, Event.isAllocOk]

/-- C4 (witness): allocation failure (`envAllocFail`) yields NULL with no
creation attempted; launch failure after a successful allocation
(`envCreateFail`) yields NULL with the storage freed exactly once. -/
theorem claimC4_witness :
    envAllocFail.alloc_ok = false ∧
    ((thread_alloc envAllocFail).1 = none ∧
      createCallCount (thread_alloc envAllocFail).2 = 0) ∧
    envCreateFail.alloc_ok = true ∧ (thread_launch envCreateFail).1 ≠ 0 ∧
    ((thread_alloc envCreateFail).1 = none ∧
      freeCount (thread_alloc envCreateFail).2 = 1) :=
  ⟨by decide, (claimC4_thread_alloc_no_leak envAllocFail).2.1 (by decide),
   by decide, by decide,
   (claimC4_thread_alloc_no_leak envCreateFail).2.2.1 (by decide) (by decide)⟩

/-- C5: `thread_cancel` (in the `MAGMA_PEDANTIC` build) emits exactly one
diagnostic log entry when the underlying `pthread_cancel` fails with a status
other than `ESRCH`, and emits none otherwise — in particular the
already-exited (`ESRCH`) case is never logged. -/
theorem claimC5_thread_cancel_logging (env : Env) :
    logCount (thread_cancel env).2 =
      (if env.cancel_ret ≠ 0 ∧ env.cancel_ret ≠ ESRCH then 1 else 0) ∧
    (logs (thread_cancel env).2 ≠ [] ↔
      (env.cancel_ret ≠ 0 ∧ env.cancel_ret ≠ ESRCH)) := by
  by_cases hc : env.cancel_ret ≠ 0 ∧ env.cancel_ret ≠ ESRCH
  · simp [thread_cancel, pthread_cancel, mclog_pedantic, hc,
      logCount, logs, Event.isLog]
  · simp [thread_cancel, pthread_cancel, hc, logCount, logs, Event.isLog]

/-- C5 (witness): at `envCancelFail` (underlying status `EPERM`, not `ESRCH`)
exactly one diagnostic is emitted; at `envAlreadyExited` (`ESRCH`) none is. -/
theorem claimC5_witness :
    logCount (thread_cancel envCancelFail).2 =
      (if envCancelFail.cancel_ret ≠ 0 ∧ envCancelFail.cancel_ret ≠ ESRCH
        then 1 else 0) ∧
    logCount (thread_cancel envAlreadyExited).2 =
      (if envAlreadyExited.cancel_ret ≠ 0 ∧ envAlreadyExited.cancel_ret ≠ ESRCH
        then 1 else 0) :=
  ⟨(claimC5_thread_cancel_logging envCancelFail).1,
   (claimC5_thread_cancel_logging envAlreadyExited).1⟩

/-- C6: `thread_signal` returns the underlying `pthread_kill` status
unchanged — non-zero (a `SignalError`) exactly when the underlying delivery
fails — and performs no logging on any path: its whole trace is the single
`pthread_kill` call. -/
theorem claimC6_thread_signal_silent (env : Env) (sig : Int) :
    (thread_signal env sig).1 = env.kill_ret ∧
    logCount (thread_signal env sig).2 = 0 ∧
    ((thread_signal env sig).1 ≠ 0 ↔ env.kill_ret ≠ 0) ∧
    (thread_signal env sig).2 = [Event.kill sig] := by
  simp [thread_signal, pthread_kill, logCount, logs, Event.isLog]

/-- C6 (witness): the statement at `envKillFail` with signal number 9. -/
theorem claimC6_witness :
    (thread_signal envKillFail 9).1 = envKillFail.kill_ret ∧
    logCount (thread_signal envKillFail 9).2 = 0 ∧
    ((thread_signal envKillFail 9).1 ≠ 0 ↔ envKillFail.kill_ret ≠ 0) ∧
    (thread_signal envKillFail 9).2 = [Event.kill 9] :=
  claimC6_thread_signal_silent envKillFail 9

/-- C7: `thread_join` and `thread_result` are equivalent except for exit-value
capture: each performs exactly one underlying `pthread_join`, they return the
same status for the same oracle, they emit identical diagnostic logs (exactly
one entry iff the join status is non-zero), and the only difference is that
`thread_join` passes a NULL result pointer (discarding the exit value) while
`thread_result` captures the exit value through its result pointer on
success. -/
theorem claimC7_join_result_equiv (env : Env) :
    (thread_join env).1 = (thread_result env).1.1 ∧
    logs (thread_join env).2 = logs (thread_result env).2 ∧
    (logCount (thread_join env).2 = if env.join_ret = 0 then 0 else 1) ∧
    joinCallCount (thread_join env).2 = 1 ∧
    joinCallCount (thread_result env).2 = 1 ∧
    (thread_join env).2.filter Event.isJoinCall =
      [Event.join false (env.join_ret == 0)] ∧
    (thread_result env).2.filter Event.isJoinCall =
      [Event.join true (env.join_ret == 0)] ∧
    ((thread_result env).1.2 =
      if env.join_ret = 0 then some env.exit_value else none) := by
  by_cases hj : env.join_ret = 0
  · simp [thread_join, thread_result, pthread_join, mclog_pedantic, hj,
      logs, logCount, Event.isLog, joinCallCount, Event.isJoinCall]
  · simp [thread_join, thread_result, pthread_join, mclog_pedantic, hj,
      logs, logCount, Event.isLog, joinCallCount, Event.isJoinCall]

/-- C7 (witness): the statement at `envJoinFail` (join fails with `EDEADLK`):
same status, same single log, no captured exit value. -/
theorem claimC7_witness :
    (thread_join envJoinFail).1 = (thread_result envJoinFail).1.1 ∧
    logs (thread_join envJoinFail).2 = logs (thread_result envJoinFail).2 ∧
    (logCount (thread_join envJoinFail).2 =
      if envJoinFail.join_ret = 0 then 0 else 1) ∧
    joinCallCount (thread_join envJoinFail).2 = 1 ∧
    joinCallCount (thread_result envJoinFail).2 = 1 ∧
    (thread_join envJoinFail).2.filter Event.isJoinCall =
      [Event.join false (envJoinFail.join_ret == 0)] ∧
    (thread_result envJoinFail).2.filter Event.isJoinCall =
      [Event.join true (envJoinFail.join_ret == 0)] ∧
    ((thread_result envJoinFail).1.2 =
      if envJoinFail.join_ret = 0 then some envJoinFail.exit_value else none) :=
  claimC7_join_result_equiv envJoinFail

/-- C8: `thread_cancel_enable` and `thread_cancel_disable` return no value
(their Lean type is the trace alone — there is no status to return, so no
error path exists at the interface), and each performs exactly one underlying
`pthread_setcancelstate` call — to the enabled resp. disabled state — with no
logging and no other effect: the set-cancel-state event is the entire trace. -/
theorem claimC8_cancel_state_ops :
    thread_cancel_enable = pthread_setcancelstate true ∧
    thread_cancel_disable = pthread_setcancelstate false ∧
    thread_cancel_enable = [Event.setcancelstate true] ∧
    thread_cancel_disable = [Event.setcancelstate false] ∧
    setCancelStateCount thread_cancel_enable = 1 ∧
    setCancelStateCount thread_cancel_disable = 1 ∧
    logCount thread_cancel_enable = 0 ∧
    logCount thread_cancel_disable = 0 := by
  decide

/-- C9: the stack size `thread_launch` configures is exactly the process-wide
configuration value `magma_core.system.thread_stack_size` read at launch time
(`env.thread_stack_size` — `thread_launch` takes no per-call stack-size
parameter), and no other attribute-configuration call occurs: the
attribute-configuring events of a run are exactly the one
`pthread_attr_setstacksize` with that value (none when attribute
initialization failed). -/
theorem claimC9_stack_size_from_config (env : Env) :
    (thread_launch env).2.filter Event.isAttrConfig =
      (if env.attr_init_ret = 0
        then [Event.attr_setstacksize env.thread_stack_size] else []) := by
  by_cases h1 : env.attr_init_ret = 0
  · by_cases h2 : env.setstacksize_ret = 0
    · by_cases h3 : env.create_ret = 0
      · rw [thread_launch_ok env h1 h2 h3, if_pos h1]; rfl
      · rw [thread_launch_create_fail env h1 h2 h3, if_pos h1]; rfl
    · rw [thread_launch_stack_fail env h1 h2, if_pos h1]; rfl
  · rw [thread_launch_init_fail env h1, if_neg h1]; rfl

/-- C9 (witness): the statement at the all-success environment `envOk`, whose
configured stack size is 262144. -/
theorem claimC9_witness :
    (thread_launch envOk).2.filter Event.isAttrConfig =
      (if envOk.attr_init_ret = 0
        then [Event.attr_setstacksize envOk.thread_stack_size] else []) :=
  claimC9_stack_size_from_config envOk

/-- C10: `thread_launch` returns 0 iff all three underlying steps succeed; on
failure it returns exactly the status code of the first failing step with no
remapping, and later steps are not attempted once an earlier step has failed
(no `pthread_attr_setstacksize` or `pthread_create` call after an
initialization failure, no `pthread_create` call after a stack-size
failure). -/
theorem claimC10_result_first_failure (env : Env) :
    ((thread_launch env).1 = 0 ↔
      env.attr_init_ret = 0 ∧ env.setstacksize_ret = 0 ∧ env.create_ret = 0) ∧
    (env.attr_init_ret ≠ 0 →
      (thread_launch env).1 = env.attr_init_ret ∧
      setStackSizeCallCount (thread_launch env).2 = 0 ∧
      createCallCount (thread_launch env).2 = 0) ∧
    (env.attr_init_ret = 0 → env.setstacksize_ret ≠ 0 →
      (thread_launch env).1 = env.setstacksize_ret ∧
      createCallCount (thread_launch env).2 = 0) ∧
    (env.attr_init_ret = 0 → env.setstacksize_ret = 0 → env.create_ret ≠ 0 →
      (thread_launch env).1 = env.create_ret) := by
  by_cases h1 : env.attr_init_ret = 0
  · by_cases h2 : env.setstacksize_ret = 0
    · by_cases h3 : env.create_ret = 0
      · rw [thread_launch_ok env h1 h2 h3]
        exact ⟨⟨fun _ => ⟨h1, h2, h3⟩, fun _ => rfl⟩,
          fun h => absurd h1 h, fun _ h => absurd h2 h, fun _ _ h => absurd h3 h⟩
      · rw [thread_launch_create_fail env h1 h2 h3]
        exact ⟨⟨fun h => absurd h h3, fun h => absurd h.2.2 h3⟩,
          fun h => absurd h1 h, fun _ h => absurd h2 h, fun _ _ _ => rfl⟩
    · rw [thread_launch_stack_fail env h1 h2]
      exact ⟨⟨fun h => absurd h h2, fun h => absurd h.2.1 h2⟩,
        fun h => absurd h1 h, fun _ _ => ⟨rfl, rfl⟩, fun _ h => absurd h h2⟩
  · rw [thread_launch_init_fail env h1]
    exact ⟨⟨fun h => absurd h h1, fun h => absurd h.1 h1⟩,
      fun _ => ⟨rfl, rfl, rfl⟩, fun h => absurd h h1, fun h => absurd h h1⟩

/-- C10 (witness): at `envInitFail` the first step fails with code 12, which
is returned unchanged, and neither later step is attempted. -/
theorem claimC10_witness :
    envInitFail.attr_init_ret ≠ 0 ∧
    ((thread_launch envInitFail).1 = envInitFail.attr_init_ret ∧
      setStackSizeCallCount (thread_launch envInitFail).2 = 0 ∧
      createCallCount (thread_launch envInitFail).2 = 0) :=
  ⟨by decide, (claimC10_result_first_failure envInitFail).2.1 (by decide)⟩

end MCore
